import Mathlib

/-!
Shallow embedding of the play-simulation core of the Chad Powers Tron
arcade-football game (src/components/football-game.tsx).

Coordinates and drive quantities are embedded as rationals: the source
works in JavaScript floating point, and every operation the verified
claims depend on (addition, multiplication by constants, min/max
clamping, Math.round) is exact at the concrete values involved.
Euclidean distances (which the source obtains via a floating point
square root) are passed to the embedded functions as already-computed
rational parameters, since the functions only compare them to fixed
thresholds or divide them by constants.

Asynchronous state updates (React setGameState callbacks and setTimeout
continuations) are collapsed to their eventual effect, in source order.
The one scheduling fact the claims depend on — whether an outcome
handler schedules resetPlay for the next play — is kept explicit: each
handler returns the resolved drive state paired with a Bool that is
true exactly when the source body reaches its setTimeout(resetPlay)
call.
-/

namespace ChadPowers

/-- Field constant from football-game.tsx line 11: FIELD_WIDTH = 36. -/
def FIELD_WIDTH : ℚ := 36

/-- Field constant from line 13: FIELD_HALF_WIDTH = FIELD_WIDTH / 2 - 0.5 = 17.5. -/
def FIELD_HALF_WIDTH : ℚ := FIELD_WIDTH / 2 - 1/2

/-- Field constant from line 14: FIELD_MIN_Z = -28. -/
def FIELD_MIN_Z : ℚ := -28

/-- Field constant from line 15: FIELD_MAX_Z = 28. -/
def FIELD_MAX_Z : ℚ := 28

/-- Field constant from line 16: ENDZONE_Z = 25. -/
def ENDZONE_Z : ℚ := 25

/-- JavaScript Math.round: rounds to the nearest integer, halves toward
positive infinity, i.e. Math.round(q) = floor(q + 1/2). -/
def jsRound (q : ℚ) : ℚ := ⌊q + 1/2⌋

/-- Game status field of the React GameState (types.ts / football-game.tsx). -/
inductive GameStatus where
  | menu
  | playing
  | gameover
deriving DecidableEq, Repr

/-- Cutscene field of the GameState ("none" | "game-start" | "touchdown" |
"sack" | "interception"). -/
inductive Cutscene where
  | noCutscene
  | gameStart
  | touchdown
  | sack
  | interception
deriving DecidableEq, Repr

/-- HUD message strings produced by the outcome handlers, embedded as an
inductive so the drive state stays decidable. `empty` stands for both the
initial null message and the cleared "" message; `sacked yds` stands for
the interpolated string "SACKED! -(yds) YDS". -/
inductive Msg where
  | empty
  | complete
  | firstDown
  | touchdownMsg
  | youWin
  | turnoverOnDowns
  | intercepted
  | sacked (yds : ℚ)
  | incompleteMsg
deriving DecidableEq, Repr

/-- Drive State: the down/possession fields of the React GameState together
with the long-lived mutable refs the outcome handlers read and write:
losRef is lineOfScrimmageRef.current (which can differ transiently from the
GameState lineOfScrimmage field), playEnded is playEndedRef.current (the
per-play resolution latch), ballThrown is ballThrownRef.current, playStarted
is playStartedRef.current. -/
structure DriveState where
  score : ℚ
  downs : ℕ
  yardsToGo : ℚ
  lineOfScrimmage : ℚ
  firstDownMarker : ℚ
  gameStatus : GameStatus
  cutscene : Cutscene
  sackTimer : ℚ
  message : Msg
  losRef : ℚ
  playEnded : Bool
  ballThrown : Bool
  playStarted : Bool
deriving DecidableEq, Repr

/-- Initial drive state set by startGame / restartGame (lines 185-203):
score 0, down 1, 10 to go, LOS -15, marker -5, status playing, game-start
cutscene, sack timer 5, refs cleared. -/
def initDriveState : DriveState where
  score := 0
  downs := 1
  yardsToGo := 10
  lineOfScrimmage := -15
  firstDownMarker := -5
  gameStatus := .playing
  cutscene := .gameStart
  sackTimer := 5
  message := .empty
  losRef := -15
  playEnded := false
  ballThrown := false
  playStarted := false

/-- Drive-state projection of resetPlay (lines 912-991): clears the per-play
refs (playStarted, ballThrown, playEnded), resets the sack timer to 5 and
clears the message. Entity repositioning by the same source function is
modelled separately on EntityState. -/
def resetPlayDrive (s : DriveState) : DriveState :=
  { s with playStarted := false, ballThrown := false, playEnded := false,
           sackTimer := 5, message := .empty }

/-- handleTouchdown (lines 1399-1431), eventual effect excluding the
scheduled reset (it schedules none): guarded by the playEnded latch; adds 7
to the score, enters the touchdown cutscene with message TOUCHDOWN!, and
after the 3 s timeout sets gameover with message YOU WIN!. The returned
Bool records whether a resetPlay was scheduled (never, for touchdown). -/
def handleTouchdown (s : DriveState) : DriveState × Bool :=
  if s.playEnded then (s, false)
  else
    ({ s with playEnded := true, score := s.score + 7, cutscene := .touchdown,
              gameStatus := .gameover, message := .youWin }, false)

/-- handleCatch (lines 1434-1512), eventual effect: guarded by the playEnded
latch, which it then sets. A catch at or beyond ENDZONE_Z - 3 sets message
COMPLETE! and defers handleTouchdown by 500 ms — by which time the latch
this very function just set is still up, so the deferred call hits
handleTouchdown's own guard. A catch at or beyond the first-down marker
moves the chains (LOS to the catch spot, marker to min(LOS+10, ENDZONE_Z-1),
yards-to-go to the rounded min(10, ENDZONE_Z-LOS) clamped at 1, down back
to 1) and schedules resetPlay. A short catch spots the ball at the catch
position, increments the down, sets yards-to-go to the rounded distance to
the marker, and either ends the game on downs or schedules resetPlay. -/
def handleCatch (catchPosition : ℚ) (s : DriveState) : DriveState × Bool :=
  if s.playEnded then (s, false)
  else
    let s1 := { s with playEnded := true }
    if catchPosition ≥ ENDZONE_Z - 3 then
      handleTouchdown { s1 with message := .complete }
    else
      let currentFirstDownMarker := s1.firstDownMarker
      if catchPosition ≥ currentFirstDownMarker then
        let newLOS := catchPosition
        let newFirstDownMarker := min (newLOS + 10) (ENDZONE_Z - 1)
        let newYardsToGo := jsRound (min 10 (ENDZONE_Z - newLOS))
        ({ s1 with losRef := newLOS, downs := 1,
                   yardsToGo := max 1 newYardsToGo,
                   lineOfScrimmage := newLOS,
                   firstDownMarker := newFirstDownMarker,
                   message := .empty }, true)
      else
        let newDowns := s1.downs + 1
        let newYardsToGo := jsRound (currentFirstDownMarker - catchPosition)
        let s2 := { s1 with losRef := catchPosition }
        if newDowns > 4 then
          ({ s2 with gameStatus := .gameover, message := .turnoverOnDowns }, false)
        else
          ({ s2 with downs := newDowns, yardsToGo := max 1 newYardsToGo,
                     lineOfScrimmage := catchPosition, message := .empty }, true)

/-- handleInterception (lines 1514-1544), eventual effect: guarded by the
latch; enters the interception cutscene with message INTERCEPTED!, and the
1.8 s timeout sets gameover and clears the cutscene regardless of the down
count. No resetPlay is ever scheduled. -/
def handleInterception (s : DriveState) : DriveState × Bool :=
  if s.playEnded then (s, false)
  else
    ({ s with playEnded := true, cutscene := .noCutscene,
              gameStatus := .gameover, message := .intercepted }, false)

/-- handleSack (lines 1546-1608), eventual effect: guarded by the latch;
yards lost is Math.round(LOS - qbZ) where qbZ is the tackled QB downfield
position, lineOfScrimmageRef moves to qbZ immediately (even when the game
then ends on downs), and after the 1.8 s cutscene either the game ends on
downs or the down increments, yards-to-go becomes the rounded old value
plus yards lost clamped at 1, the GameState LOS moves to qbZ, and resetPlay
is scheduled. The transient "SACKED!" cutscene message is overwritten by
the timeout branch in the source and is therefore not recorded here. -/
def handleSack (qbZ : ℚ) (s : DriveState) : DriveState × Bool :=
  if s.playEnded then (s, false)
  else
    let newDowns := s.downs + 1
    let yardsLost := jsRound (s.losRef - qbZ)
    let newLOS := qbZ
    let newYardsToGo := jsRound (s.yardsToGo + yardsLost)
    let s1 := { s with playEnded := true, losRef := newLOS }
    if newDowns > 4 then
      ({ s1 with gameStatus := .gameover, cutscene := .noCutscene,
                 message := .turnoverOnDowns }, false)
    else
      ({ s1 with downs := newDowns, yardsToGo := max 1 newYardsToGo,
                 lineOfScrimmage := newLOS, cutscene := .noCutscene,
                 message := .empty }, true)

/-- handleIncomplete (lines 1610-1638), eventual effect: guarded by the
latch; the down increments, ending the game on downs past 4, otherwise the
transient INCOMPLETE! message is cleared by the 1.5 s timeout which also
schedules resetPlay. -/
def handleIncomplete (s : DriveState) : DriveState × Bool :=
  if s.playEnded then (s, false)
  else
    let s1 := { s with playEnded := true }
    let newDowns := s1.downs + 1
    if newDowns > 4 then
      ({ s1 with gameStatus := .gameover, message := .turnoverOnDowns }, false)
    else
      ({ s1 with downs := newDowns, message := .empty }, true)

/-- Terminal outcome triggers of one play, tagged with the measurement each
source trigger site reads: the ball z position for a catch, the QB z
position for a sack. -/
inductive PlayOutcome where
  | catchAt (catchPosition : ℚ)
  | interception
  | sack (qbZ : ℚ)
  | incomplete
deriving DecidableEq, Repr

/-- Dispatch of an outcome trigger to its handler, returning the resolved
drive state and whether the handler scheduled resetPlay. -/
def applyOutcome : PlayOutcome → DriveState → DriveState × Bool
  | .catchAt p, s => handleCatch p s
  | .interception, s => handleInterception s
  | .sack z, s => handleSack z s
  | .incomplete, s => handleIncomplete s

/-- Full eventual transition of one outcome trigger: the handler's resolved
state, with the scheduled resetPlay applied when the handler scheduled one. -/
def stepOutcome (o : PlayOutcome) (s : DriveState) : DriveState :=
  let r := applyOutcome o s
  if r.2 then resetPlayDrive r.1 else r.1

/-- Per-axis merge of the joystick and keyboard inputs (lines 1785-1786):
whichever has the strictly larger magnitude wins, keyboard on ties. -/
def mergeInput (joystick keyboard : ℚ) : ℚ :=
  if |joystick| > |keyboard| then joystick else keyboard

/-- QB movement update of one frame (lines 1772-1795): position is displaced
by input * moveSpeed * delta (moveSpeed = 6; the z axis subtracts inputY),
then the x coordinate is clamped to [-FIELD_HALF_WIDTH+1, FIELD_HALF_WIDTH-1]
and the z coordinate to [FIELD_MIN_Z+2, -10]. The pair is (x, z). -/
def qbMove (pos : ℚ × ℚ) (inputX inputY delta : ℚ) : ℚ × ℚ :=
  let moveSpeed : ℚ := 6
  let x := pos.1 + inputX * moveSpeed * delta
  let z := pos.2 - inputY * moveSpeed * delta
  (max (-FIELD_HALF_WIDTH + 1) (min (FIELD_HALF_WIDTH - 1) x),
   max (FIELD_MIN_Z + 2) (min (-10) z))

/-- Position vector with the source's axis names: x lateral, y vertical,
z downfield. -/
structure Vec3 where
  x : ℚ
  y : ℚ
  z : ℚ
deriving DecidableEq, Repr

/-- Ball flight record (ballFlightRef, lines 98-104): start and target
positions, total duration and peak arc height. The start time is kept
outside the record: the embedded integrator takes the elapsed time
(performance.now()/1000 - startTime) directly. -/
structure Flight where
  startPos : Vec3
  targetPos : Vec3
  duration : ℚ
  maxHeight : ℚ
deriving DecidableEq, Repr

/-- BABYLON.Scalar.Lerp: start + (end - start) * amount. -/
def lerp (a b t : ℚ) : ℚ := a + (b - a) * t

/-- Interpolation parameter of the flight integrator (line 2020):
t = Math.min(elapsed / duration, 1). -/
def flightT (f : Flight) (elapsed : ℚ) : ℚ := min (elapsed / f.duration) 1

/-- In-flight ball position of one frame (lines 2022-2031): linear
interpolation of x and z from start to target at t, and height equal to the
linear interpolation of the start/target heights plus the parabolic arc
4 * maxHeight * t * (1 - t). -/
def ballFlightPos (f : Flight) (elapsed : ℚ) : Vec3 :=
  let t := flightT f elapsed
  { x := lerp f.startPos.x f.targetPos.x t
    y := lerp f.startPos.y f.targetPos.y t + 4 * f.maxHeight * t * (1 - t)
    z := lerp f.startPos.z f.targetPos.z t }

/-- Result of the arrival resolution of a throw. -/
inductive ArrivalResult where
  | caught
  | intercepted
  | incompletePass
deriving DecidableEq, Repr

/-- Catch probability constants at arrival (line 2046): 0.95 for an open
receiver, 0.55 for a covered one. -/
def catchChance (isOpen : Bool) : ℚ := if isOpen then 19/20 else 11/20

/-- Arrival resolution (lines 2040-2055), run once when t reaches 1:
distToReceiver is the Euclidean distance from the ball to the targeted
receiver's position at arrival (computed by the source via
BABYLON.Vector3.Distance and passed here as a rational), isOpen the
receiver's current coverage flag, and u the Math.random() draw in [0, 1).
Within the catchable radius 5 the draw decides catch versus interception;
beyond it the pass is incomplete. -/
def resolveAtArrival (distToReceiver : ℚ) (isOpen : Bool) (u : ℚ) : ArrivalResult :=
  if distToReceiver < 5 then
    if u < catchChance isOpen then .caught else .intercepted
  else .incompletePass

/-- Ball/throw state read and written by throwBall and the pointer handler:
the game status and the playEnded latch (drive state), the ballThrown flag,
the current flight record, and whether a receiver is selected. -/
structure ThrowState where
  gameStatus : GameStatus
  playEnded : Bool
  ballThrown : Bool
  flight : Option Flight
  receiverSelected : Bool
deriving DecidableEq, Repr

/-- throwBall (lines 1319-1396): returns unchanged if ballThrownRef is
already set (the only guard the function has); otherwise records the
selected receiver, sets ballThrownRef and installs the new flight record.
The record's numeric content (lead point from the receiver's route
velocity, optional click-point bias, field clamping, duration and arc
height from the throw distance) is computed by the source in floating
point from Euclidean distances; it is abstracted here as the record fl
the call would construct, since the verified claims about throwBall
concern only its guard and the creation of the flight record. -/
def throwBall (fl : Flight) (s : ThrowState) : ThrowState :=
  if s.ballThrown then s
  else { s with receiverSelected := true, ballThrown := true, flight := some fl }

/-- Pointer-down throw request (lines 1641-1713): refused while the game
status is not playing or a ball is already thrown; otherwise it calls
throwBall with the picked receiver and click point. -/
def pointerThrow (fl : Flight) (s : ThrowState) : ThrowState :=
  if s.gameStatus ≠ .playing ∨ s.ballThrown then s
  else throwBall fl s

/-- Receiver entity data the claims read: position and the open/covered
flag (types.ts Receiver). -/
structure ReceiverData where
  posX : ℚ
  posZ : ℚ
  isOpen : Bool
deriving DecidableEq, Repr

/-- Entity-state projection of resetPlay for the two receivers
(lines 945-954): wr1 is placed at (-FIELD_HALF_WIDTH+4, los), wr2 at
(FIELD_HALF_WIDTH-4, los), and both isOpen flags are set to true
unconditionally, whatever the previous entity state was. -/
structure Receivers where
  wr1 : ReceiverData
  wr2 : ReceiverData
deriving DecidableEq, Repr

/-- Receiver part of resetPlay (lines 946-954). -/
def resetPlayReceivers (los : ℚ) (_old : Receivers) : Receivers where
  wr1 := { posX := -FIELD_HALF_WIDTH + 4, posZ := los, isOpen := true }
  wr2 := { posX := FIELD_HALF_WIDTH - 4, posZ := los, isOpen := true }

/-- Open-flag recomputation by a corner defender's per-frame update
(lines 1981-1982): isOpen := distance(defender, receiver) > 4, with the
distance compared through its square to stay in the rationals (for
nonnegative lengths, dist > 4 holds exactly when dist^2 > 16; both
entities sit at height 0, so the source's 3D distance is planar). -/
def cornerUpdateOpen (defenderX defenderZ : ℚ) (r : ReceiverData) : ReceiverData :=
  { r with isOpen :=
      decide ((defenderX - r.posX)^2 + (defenderZ - r.posZ)^2 > 16) }

/-- Outcomes whose handler increments the down counter: incomplete, sack,
and a catch that is short of both the touchdown threshold and the
first-down marker. Interception never increments (it ends the game
directly), and the remaining catches reset the down or defer to
handleTouchdown. -/
def incrementsDown (o : PlayOutcome) (s : DriveState) : Prop :=
  match o with
  | .catchAt p => p < ENDZONE_Z - 3 ∧ p < s.firstDownMarker
  | .interception => False
  | .sack _ => True
  | .incomplete => True

/-- Helper: every outcome handler is a silent no-op when the per-play
resolution latch is already set, returning the state unchanged and
scheduling nothing. -/
theorem applyOutcome_latched (o : PlayOutcome) (s : DriveState)
    (h : s.playEnded = true) : applyOutcome o s = (s, false) := by
  cases o <;>
    simp [applyOutcome, handleCatch, handleTouchdown, handleInterception,
      handleSack, handleIncomplete, h]

/-- Helper: after any outcome handler runs, the per-play resolution latch
is set in the handler's resolved state (reset, which clears it for the
next play, is outside applyOutcome). -/
theorem applyOutcome_sets_latch (o : PlayOutcome) (s : DriveState) :
    (applyOutcome o s).1.playEnded = true := by
  cases o <;> by_cases h : s.playEnded <;>
    simp [applyOutcome, handleCatch, handleTouchdown, handleInterception,
      handleSack, handleIncomplete, h] <;>
    split_ifs <;> simp_all

/-- Claim C1: every terminal outcome transition keeps the down counter in
[1, 4] — so down > 4 is never observable, in particular not while
gameStatus is playing — and any outcome that would increment the down past
4 from an unresolved play at down 4 instead sets gameStatus to gameover
with the turnover-on-downs message. -/
theorem c1_down_counter_in_one_to_four (o : PlayOutcome) (s : DriveState)
    (h1 : 1 ≤ s.downs) (h4 : s.downs ≤ 4) :
    (1 ≤ (stepOutcome o s).downs ∧ (stepOutcome o s).downs ≤ 4) ∧
    (s.playEnded = false → s.downs = 4 → incrementsDown o s →
      (stepOutcome o s).gameStatus = .gameover ∧
      (stepOutcome o s).message = .turnoverOnDowns) := by
  cases o with
  | catchAt p =>
    simp only [stepOutcome, applyOutcome, handleCatch, handleTouchdown, resetPlayDrive,
      incrementsDown]
    split_ifs <;> simp_all <;> omega
  | interception =>
    simp only [stepOutcome, applyOutcome, handleInterception, incrementsDown]
    split_ifs <;> simp_all
  | sack z =>
    simp only [stepOutcome, applyOutcome, handleSack, resetPlayDrive, incrementsDown]
    split_ifs <;> simp_all <;> omega
  | incomplete =>
    simp only [stepOutcome, applyOutcome, handleIncomplete, resetPlayDrive, incrementsDown]
    split_ifs <;> simp_all <;> omega

/-- Witness for C1: an incomplete pass from the initial state at down 4
keeps the down in [1, 4] and ends the game on downs. -/
theorem c1_down_counter_in_one_to_four_witness :
    1 ≤ ({ initDriveState with downs := 4 } : DriveState).downs ∧
    ({ initDriveState with downs := 4 } : DriveState).downs ≤ 4 ∧
    (stepOutcome .incomplete { initDriveState with downs := 4 }).gameStatus
      = .gameover := by
  have h1 : 1 ≤ ({ initDriveState with downs := 4 } : DriveState).downs := by
    norm_num [initDriveState]
  have h4 : ({ initDriveState with downs := 4 } : DriveState).downs ≤ 4 := by
    norm_num [initDriveState]
  exact ⟨h1, h4,
    ((c1_down_counter_in_one_to_four .incomplete _ h1 h4).2 rfl rfl
      (by simp [incrementsDown])).1⟩

/-- Claim C2 (amended): a catch at or beyond the first-down marker and
short of the touchdown threshold moves the line of scrimmage (both the
GameState field and the mutable ref) to the catch position, sets the
first-down marker to min(newLOS + 10, ENDZONE_Z - 1), sets yards-to-go to
Math.round(min(10, ENDZONE_Z - newLOS)) clamped below at 1 — the source
rounds, the original claim asserted the unrounded value — and resets the
down counter to 1. -/
theorem c2_first_down_catch_amended (s : DriveState) (pos : ℚ)
    (hlatch : s.playEnded = false)
    (htd : pos < ENDZONE_Z - 3)
    (hmarker : s.firstDownMarker ≤ pos) :
    (stepOutcome (.catchAt pos) s).lineOfScrimmage = pos ∧
    (stepOutcome (.catchAt pos) s).losRef = pos ∧
    (stepOutcome (.catchAt pos) s).firstDownMarker = min (pos + 10) (ENDZONE_Z - 1) ∧
    (stepOutcome (.catchAt pos) s).yardsToGo
      = max 1 (jsRound (min 10 (ENDZONE_Z - pos))) ∧
    (stepOutcome (.catchAt pos) s).downs = 1 := by
  simp only [stepOutcome, applyOutcome, handleCatch, resetPlayDrive]
  split_ifs <;> simp_all <;> linarith

/-- Counterexample for C2 as stated: from the initial drive (marker -5), a
catch at z = 20.4 yields yards-to-go 5 in the code, while the claim's
formula min(10, ENDZONE_Z - newLOS) gives 4.6 — the code rounds to the
nearest integer. -/
theorem c2_first_down_yards_to_go_counterexample :
    (stepOutcome (.catchAt (102/5)) initDriveState).yardsToGo = 5 ∧
    min 10 (ENDZONE_Z - 102/5) = 23/5 ∧ (5 : ℚ) ≠ 23/5 := by
  refine ⟨?_, by norm_num [ENDZONE_Z], by norm_num⟩
  simp [stepOutcome, applyOutcome, handleCatch, handleTouchdown, resetPlayDrive,
    initDriveState, ENDZONE_Z, jsRound]
  norm_num

/-- Witness for C2 (spec Scenario A): from LOS -15 with marker -5, a catch
at z = 0 gives new LOS 0, new marker 10, and down 1. -/
theorem c2_first_down_catch_amended_witness :
    initDriveState.playEnded = false ∧
    (0 : ℚ) < ENDZONE_Z - 3 ∧
    initDriveState.firstDownMarker ≤ 0 ∧
    (stepOutcome (.catchAt 0) initDriveState).lineOfScrimmage = 0 ∧
    (stepOutcome (.catchAt 0) initDriveState).firstDownMarker = min (0 + 10) (ENDZONE_Z - 1) ∧
    (stepOutcome (.catchAt 0) initDriveState).downs = 1 := by
  have h1 : initDriveState.playEnded = false := rfl
  have h2 : (0 : ℚ) < ENDZONE_Z - 3 := by norm_num [ENDZONE_Z]
  have h3 : initDriveState.firstDownMarker ≤ 0 := by norm_num [initDriveState]
  obtain ⟨a, _, b, _, c⟩ := c2_first_down_catch_amended initDriveState 0 h1 h2 h3
  exact ⟨h1, h2, h3, a, b, c⟩

/-- Claim C3, evaluated at the failing input: a catch at z = 23 (at or
beyond ENDZONE_Z - 3 = 22) is supposed to fire the touchdown outcome, add
7 to the score and eventually end the game with the win message. In the
code, handleCatch sets the playEnded latch and only then defers
handleTouchdown, whose own latch guard makes the deferred call a no-op:
the score is unchanged, the status stays playing, and the play is left
resolved with only the COMPLETE! message — no reset is scheduled either,
so the game soft-locks. -/
theorem c3_touchdown_blocked_by_latch :
    (23 : ℚ) ≥ ENDZONE_Z - 3 ∧
    (stepOutcome (.catchAt 23) initDriveState).score = initDriveState.score ∧
    (stepOutcome (.catchAt 23) initDriveState).gameStatus = .playing ∧
    (stepOutcome (.catchAt 23) initDriveState).message = .complete ∧
    (stepOutcome (.catchAt 23) initDriveState).playEnded = true ∧
    (applyOutcome (.catchAt 23) initDriveState).2 = false := by
  simp [stepOutcome, applyOutcome, handleCatch, handleTouchdown, initDriveState, ENDZONE_Z]
  norm_num

/-- Claim C4 (amended): when a sack fires on an unresolved play, the line
of scrimmage ref moves to the QB's tackled z position; on downs 1-3 the
down increments, the GameState line of scrimmage moves to the tackle
position and yards-to-go becomes Math.round of the old value plus yards
lost, where yards lost is Math.round(LOS - tacklePosition) — the source
rounds, the original claim asserted the exact difference — clamped below
at 1; at down 4 the game instead ends on downs. -/
theorem c4_sack_transition_amended (s : DriveState) (qbZ : ℚ)
    (hlatch : s.playEnded = false) :
    (stepOutcome (.sack qbZ) s).losRef = qbZ ∧
    (s.downs + 1 ≤ 4 →
      (stepOutcome (.sack qbZ) s).downs = s.downs + 1 ∧
      (stepOutcome (.sack qbZ) s).lineOfScrimmage = qbZ ∧
      (stepOutcome (.sack qbZ) s).yardsToGo
        = max 1 (jsRound (s.yardsToGo + jsRound (s.losRef - qbZ))) ∧
      (stepOutcome (.sack qbZ) s).gameStatus = s.gameStatus) ∧
    (s.downs + 1 > 4 →
      (stepOutcome (.sack qbZ) s).gameStatus = .gameover ∧
      (stepOutcome (.sack qbZ) s).downs = s.downs ∧
      (stepOutcome (.sack qbZ) s).message = .turnoverOnDowns) := by
  simp only [stepOutcome, applyOutcome, handleSack, resetPlayDrive]
  split_ifs <;> simp_all <;> omega

/-- Counterexample for C4 as stated: a sack at QB z = -17.3 from LOS -15
means an exact loss of 2.3 yards, so the claim's yards-to-go would be
10 + 2.3 = 12.3; the code rounds the loss to 2 and yields 12. -/
theorem c4_sack_yards_lost_counterexample :
    (stepOutcome (.sack (-173/10)) initDriveState).yardsToGo = 12 ∧
    initDriveState.yardsToGo + (initDriveState.losRef - (-173/10)) = 123/10 ∧
    (12 : ℚ) ≠ 123/10 := by
  refine ⟨?_, by norm_num [initDriveState], by norm_num⟩
  simp [stepOutcome, applyOutcome, handleSack, resetPlayDrive, initDriveState, jsRound]
  norm_num

/-- Witness for C4: a sack at QB z = -20 from the initial drive moves the
line of scrimmage ref to -20, and the down-1 branch increments the down. -/
theorem c4_sack_transition_amended_witness :
    initDriveState.playEnded = false ∧
    (stepOutcome (.sack (-20)) initDriveState).losRef = -20 ∧
    (stepOutcome (.sack (-20)) initDriveState).downs = initDriveState.downs + 1 := by
  have h1 : initDriveState.playEnded = false := rfl
  obtain ⟨a, b, _⟩ := c4_sack_transition_amended initDriveState (-20) h1
  exact ⟨h1, a, (b (by norm_num [initDriveState])).1⟩

/-- Claim C5: at ball arrival, a distance to the targeted receiver of at
least the catchable radius 5 yields an incomplete pass; within the radius
the Math.random draw against the catch probability — 0.95 for an open
receiver, 0.55 for a covered one — yields a catch on success and an
interception on failure, the open probability strictly exceeds the covered
one, and both lie in (0, 1]. -/
theorem c5_arrival_resolution (dist u : ℚ) (isOpen : Bool) :
    (5 ≤ dist → resolveAtArrival dist isOpen u = .incompletePass) ∧
    (dist < 5 → u < catchChance isOpen → resolveAtArrival dist isOpen u = .caught) ∧
    (dist < 5 → catchChance isOpen ≤ u → resolveAtArrival dist isOpen u = .intercepted) ∧
    catchChance false < catchChance true ∧
    0 < catchChance false ∧ 0 < catchChance true ∧
    catchChance false ≤ 1 ∧ catchChance true ≤ 1 := by
  refine ⟨fun h1 => ?_, fun h1 h2 => ?_, fun h1 h2 => ?_, by norm_num [catchChance],
    by norm_num [catchChance], by norm_num [catchChance], by norm_num [catchChance],
    by norm_num [catchChance]⟩
  · simp [resolveAtArrival, not_lt.mpr h1]
  · simp [resolveAtArrival, h1, h2]
  · simp [resolveAtArrival, h1, not_lt.mpr h2]

/-- Witness for C5: an open receiver 3 units from the ball with a draw of
0.5 < 0.95 produces a catch. -/
theorem c5_arrival_resolution_witness :
    (3 : ℚ) < 5 ∧ (1/2 : ℚ) < catchChance true ∧
    resolveAtArrival 3 true (1/2) = .caught :=
  ⟨by norm_num, by norm_num [catchChance],
   (c5_arrival_resolution 3 (1/2) true).2.1 (by norm_num)
     (by norm_num [catchChance])⟩

/-- Claim C6 (amended): for every deltaTime and intent, the QB position
after the movement update lies in the pocket x ∈ [-FIELD_HALF_WIDTH + 1,
FIELD_HALF_WIDTH - 1] and z ∈ [FIELD_MIN_Z + 2, -10]. The downfield
ceiling is the fixed constant -10, not the line of scrimmage as the
original claim stated, so the QB can advance past the line of scrimmage
whenever it lies below -10. -/
theorem c6_qb_pocket_bounds_amended (x z ix iy d : ℚ)
    (hd : 0 ≤ d) (hx : |ix| ≤ 1) (hy : |iy| ≤ 1) :
    -FIELD_HALF_WIDTH + 1 ≤ (qbMove (x, z) ix iy d).1 ∧
    (qbMove (x, z) ix iy d).1 ≤ FIELD_HALF_WIDTH - 1 ∧
    FIELD_MIN_Z + 2 ≤ (qbMove (x, z) ix iy d).2 ∧
    (qbMove (x, z) ix iy d).2 ≤ -10 := by
  simp only [qbMove]
  refine ⟨le_max_left _ _,
    max_le (by norm_num [FIELD_HALF_WIDTH, FIELD_WIDTH]) (min_le_left _ _),
    le_max_left _ _,
    max_le (by norm_num [FIELD_MIN_Z]) (min_le_left _ _)⟩

/-- Counterexample for C6 as stated: from the kickoff QB spot (0, -23)
with full forward intent for 3 seconds, the QB ends at z = -10, which is
ahead of the initial line of scrimmage -15 — the claimed bound z ≤ LOS
fails. -/
theorem c6_qb_crosses_los_counterexample :
    qbMove (0, -23) 0 (-1) 3 = (0, -10) ∧
    initDriveState.lineOfScrimmage = -15 ∧ ¬((-10 : ℚ) ≤ -15) := by
  refine ⟨?_, by norm_num [initDriveState], by norm_num⟩
  simp [qbMove, FIELD_HALF_WIDTH, FIELD_WIDTH, FIELD_MIN_Z]
  norm_num

/-- Witness for C6: a unit-right intent for one second from the QB spot
stays inside the pocket bounds. -/
theorem c6_qb_pocket_bounds_amended_witness :
    (0 : ℚ) ≤ 1 ∧ |(1 : ℚ)| ≤ 1 ∧ |(0 : ℚ)| ≤ 1 ∧
    (qbMove (0, -23) 1 0 1).1 ≤ FIELD_HALF_WIDTH - 1 ∧
    (qbMove (0, -23) 1 0 1).2 ≤ -10 := by
  have hd : (0 : ℚ) ≤ 1 := by norm_num
  have hx : |(1 : ℚ)| ≤ 1 := by norm_num
  have hy : |(0 : ℚ)| ≤ 1 := by norm_num
  obtain ⟨_, a, _, b⟩ := c6_qb_pocket_bounds_amended 0 (-23) 1 0 1 hd hx hy
  exact ⟨hd, hx, hy, a, b⟩

/-- Claim C7: for a flight of positive duration and nonnegative peak
height, the in-flight position is the linear interpolation of start to
target at t = min(elapsed/duration, 1), which equals
clamp(elapsed/duration, 0, 1) for nonnegative elapsed; its height is the
interpolated vertical offset plus the arc 4 * maxHeight * t * (1 - t);
at elapsed 0 the ball is exactly at the start position, and at any
elapsed at or beyond the duration exactly at the target. -/
theorem c7_ball_flight_interpolation (f : Flight)
    (hd : 0 < f.duration) (hh : 0 ≤ f.maxHeight) :
    ballFlightPos f 0 = f.startPos ∧
    (∀ e, f.duration ≤ e → ballFlightPos f e = f.targetPos) ∧
    (∀ e, 0 ≤ e → flightT f e = max 0 (min (e / f.duration) 1)) ∧
    (∀ e, (ballFlightPos f e).y =
      lerp f.startPos.y f.targetPos.y (flightT f e)
        + 4 * f.maxHeight * flightT f e * (1 - flightT f e)) := by
  obtain ⟨⟨sx, sy, sz⟩, ⟨tx, ty, tz⟩, d, h⟩ := f
  simp only at hd hh
  refine ⟨?_, ?_, ?_, ?_⟩
  · simp [ballFlightPos, flightT, lerp, zero_div]
  · intro e he
    have h1 : (1 : ℚ) ≤ e / d := (one_le_div hd).mpr he
    simp only [ballFlightPos, flightT, lerp, min_eq_right h1, Vec3.mk.injEq]
    refine ⟨by ring, by ring, by ring⟩
  · intro e he
    have h0 : (0 : ℚ) ≤ min (e / d) 1 := le_min (div_nonneg he hd.le) zero_le_one
    simp [flightT, max_eq_right h0]
  · intro e
    simp [ballFlightPos]

/-- Witness for C7: a concrete one-second flight from (0, 1.5, -22) to
(2, 1.5, 0) with arc peak 2 starts exactly at its start position. -/
theorem c7_ball_flight_interpolation_witness :
    (0 : ℚ) < (⟨⟨0, 3/2, -22⟩, ⟨2, 3/2, 0⟩, 1, 2⟩ : Flight).duration ∧
    (0 : ℚ) ≤ (⟨⟨0, 3/2, -22⟩, ⟨2, 3/2, 0⟩, 1, 2⟩ : Flight).maxHeight ∧
    ballFlightPos ⟨⟨0, 3/2, -22⟩, ⟨2, 3/2, 0⟩, 1, 2⟩ 0 = ⟨0, 3/2, -22⟩ := by
  have hd : (0 : ℚ) < (⟨⟨0, 3/2, -22⟩, ⟨2, 3/2, 0⟩, 1, 2⟩ : Flight).duration := by
    norm_num
  have hh : (0 : ℚ) ≤ (⟨⟨0, 3/2, -22⟩, ⟨2, 3/2, 0⟩, 1, 2⟩ : Flight).maxHeight := by
    norm_num
  exact ⟨hd, hh, (c7_ball_flight_interpolation _ hd hh).1⟩

/-- Claim C8: the per-play resolution latch makes every outcome handler a
silent no-op on a state whose latch is already set; every handler leaves
the latch set in its resolved state; hence whatever outcome fires first,
any second outcome triggered on the resulting state — including one racing
in the same frame — returns the state unchanged and schedules nothing. -/
theorem c8_single_resolution_latch (o o2 : PlayOutcome) (s : DriveState) :
    (s.playEnded = true → applyOutcome o s = (s, false)) ∧
    (applyOutcome o s).1.playEnded = true ∧
    applyOutcome o2 (applyOutcome o s).1 = ((applyOutcome o s).1, false) :=
  ⟨applyOutcome_latched o s,
   applyOutcome_sets_latch o s,
   applyOutcome_latched o2 _ (applyOutcome_sets_latch o s)⟩

/-- Witness for C8: after an incomplete pass resolves the initial play, a
racing sack trigger is a silent no-op. -/
theorem c8_single_resolution_latch_witness :
    (applyOutcome .incomplete initDriveState).1.playEnded = true ∧
    applyOutcome (.sack (-20)) (applyOutcome .incomplete initDriveState).1
      = ((applyOutcome .incomplete initDriveState).1, false) :=
  ⟨(c8_single_resolution_latch .incomplete (.sack (-20)) initDriveState).2.1,
   (c8_single_resolution_latch .incomplete (.sack (-20)) initDriveState).2.2⟩

/-- Claim C9 (amended): a throw request while a ball is already thrown (a
flight active), or while the game status is not playing, is a silent no-op
that leaves the throw state — flight record included — unchanged, so at
most one flight record ever exists; the original claim's further guarantee
that a throw after the play has ended is also a no-op does not hold, since
throwBall checks only ballThrownRef and the pointer handler only the game
status and ballThrownRef, not the playEnded latch. -/
theorem c9_throw_guards_amended (fl : Flight) (s : ThrowState) :
    (s.ballThrown = true → throwBall fl s = s ∧ pointerThrow fl s = s) ∧
    (s.gameStatus ≠ .playing → pointerThrow fl s = s) ∧
    (s.flight.isSome = true → s.ballThrown = true → pointerThrow fl s = s) := by
  refine ⟨fun h => ⟨?_, ?_⟩, fun h => ?_, fun _ h => ?_⟩ <;>
    simp [throwBall, pointerThrow, h]

/-- Counterexample for C9 as stated: in the window after an outcome
handler has resolved the play (latch set, ball no longer thrown, flight
cleared) and before the scheduled reset, while the status is still
playing, a pointer throw is accepted and installs a new flight record —
not the claimed silent no-op. -/
theorem c9_throw_after_play_end_counterexample :
    (({ gameStatus := .playing, playEnded := true, ballThrown := false,
        flight := none, receiverSelected := false } : ThrowState)).playEnded = true ∧
    (pointerThrow ⟨⟨0, 3/2, -22⟩, ⟨2, 3/2, 0⟩, 1, 2⟩
      { gameStatus := .playing, playEnded := true, ballThrown := false,
        flight := none, receiverSelected := false }).flight
      = some ⟨⟨0, 3/2, -22⟩, ⟨2, 3/2, 0⟩, 1, 2⟩ := by
  simp [pointerThrow, throwBall]

/-- Witness for C9: with a ball already thrown, a further throw request
leaves the state unchanged. -/
theorem c9_throw_guards_amended_witness :
    (({ gameStatus := .playing, playEnded := false, ballThrown := true,
        flight := some ⟨⟨0, 3/2, -22⟩, ⟨2, 3/2, 0⟩, 1, 2⟩,
        receiverSelected := true } : ThrowState)).ballThrown = true ∧
    pointerThrow ⟨⟨0, 0, 0⟩, ⟨0, 0, 0⟩, 1, 0⟩
      { gameStatus := .playing, playEnded := false, ballThrown := true,
        flight := some ⟨⟨0, 3/2, -22⟩, ⟨2, 3/2, 0⟩, 1, 2⟩,
        receiverSelected := true }
      = { gameStatus := .playing, playEnded := false, ballThrown := true,
          flight := some ⟨⟨0, 3/2, -22⟩, ⟨2, 3/2, 0⟩, 1, 2⟩,
          receiverSelected := true } :=
  ⟨rfl, ((c9_throw_guards_amended ⟨⟨0, 0, 0⟩, ⟨0, 0, 0⟩, 1, 0⟩ _).1 rfl).2⟩

/-- Claim C10: resetting a play places the receivers on the new line of
scrimmage and sets both open flags to true unconditionally, whatever the
previous entity state (in particular however close the corner defenders
are), and a subsequent corner-defender update recomputes the flag as
squared defender distance exceeding 16, i.e. distance > 4, leaving the
receiver's position alone. -/
theorem c10_reset_receivers_open (rs : Receivers) (los dx dz : ℚ)
    (r : ReceiverData) :
    (resetPlayReceivers los rs).wr1.isOpen = true ∧
    (resetPlayReceivers los rs).wr2.isOpen = true ∧
    (resetPlayReceivers los rs).wr1.posX = -FIELD_HALF_WIDTH + 4 ∧
    (resetPlayReceivers los rs).wr1.posZ = los ∧
    (resetPlayReceivers los rs).wr2.posX = FIELD_HALF_WIDTH - 4 ∧
    (resetPlayReceivers los rs).wr2.posZ = los ∧
    ((cornerUpdateOpen dx dz r).isOpen = true ↔
      (dx - r.posX)^2 + (dz - r.posZ)^2 > 16) ∧
    (cornerUpdateOpen dx dz r).posX = r.posX ∧
    (cornerUpdateOpen dx dz r).posZ = r.posZ := by
  simp [resetPlayReceivers, cornerUpdateOpen]

end ChadPowers
